import Mathlib

/-!
Verification of the jx `context` and `init` commands
(src/pkg/jx/cmd/context.go) against their specification.

The Go code is shallowly embedded: every external collaborator
(Kubernetes API, helm installer, survey prompts, bounded waits) is a
field of an environment record holding the outcome the collaborator
would produce, and every workflow function returns its result together
with a trace of the observable effects it performed, in program order.
-/

deriving instance DecidableEq for Except

unseal String.ltb List.merge List.mergeSort

namespace JX

/-- Errors surfaced by the workflows, abstracting the Go error values.
`external n` stands for an arbitrary collaborator error distinguished
by a code. -/
inductive Err where
  | missingOption (opt : String)
  | invalidArg (value : String) (values : List String)
  | noContexts
  | contextNotFound (name : String)
  | updateFailed
  | ensureNamespaceFailed (ns : String) (cause : Err)
  | wrapped (msg : String) (cause : Err)
  | emptyKubeConfig
  | parseMasterURL (host : String) (cause : Err)
  | external (code : Nat)
  deriving DecidableEq, Repr

/-- Observable effects of the init workflow, recorded in program order. -/
inductive Action where
  | ensureNamespace (ns : String)
  | queryPodCount (deployment ns : String)
  | promptInstallConfirm
  | installAttempt (n : Nat)
  | sleepSec (sec : Nat)
  | logInstallError
  | waitDeploymentReady (deployment ns : String)
  | waitExternalIP (svc ns : String)
  | resolveDomain (ip : String)
  | writeTempValuesFile (name : String)
  | getBinding (name : String) (attempt : Nat)
  | createBinding (name : String) (attempt : Nat)
  deriving DecidableEq, Repr

/-! ### Context switcher (ContextOptions.Run) -/

/-- A kube context: the cluster it points at and its namespace
(clientcmdapi.Context, reduced to the fields the command reads). -/
structure KubeCtx where
  cluster : String
  nspace : String
  deriving DecidableEq, Repr

/-- The persisted kube configuration: context entries keyed by name
(a nil entry is represented by `none`), cluster server URLs keyed by
cluster name, and the current-context pointer. -/
structure KubeConfig where
  contexts : List (String × Option KubeCtx)
  clusters : List (String × String)
  currentContext : String
  deriving DecidableEq, Repr

/-- strings.Index k filter >= 0: substring containment. -/
def strContainsSub (s sub : String) : Bool :=
  decide (sub.toList <:+: s.toList)

/-- sort.Strings: lexicographic sort. -/
def sortStrings (l : List String) : List String :=
  l.mergeSort

/-- Modelled from the spec: kube.Server (repo kube package, not in src)
resolves the server URL of the cluster referenced by a context. -/
def kubeServer (cfg : KubeConfig) (ctx : KubeCtx) : String :=
  (cfg.clusters.lookup ctx.cluster).getD ""

/-- config.Contexts[name], collapsing a missing key and a nil value. -/
def lookupCtx (cfg : KubeConfig) (name : String) : Option KubeCtx :=
  match cfg.contexts.lookup name with
  | some (some c) => some c
  | _ => none

/-- Modelled from the spec: kube.CurrentNamespace (repo kube package,
not in src) — the namespace of the current context. -/
def currentNamespace (cfg : KubeConfig) : String :=
  match lookupCtx cfg cfg.currentContext with
  | some c => c.nspace
  | none => ""

/-- Modelled from the spec: kube.CurrentServer (repo kube package,
not in src) — the server URL of the current context. -/
def currentServer (cfg : KubeConfig) : String :=
  match lookupCtx cfg cfg.currentContext with
  | some c => kubeServer cfg c
  | none => ""

/-- The namespace/context/server triple the command prints:
`switched` for the branch that rewrote the current context,
`unchanged` for the no-write branch. -/
inductive Report where
  | switched (nspace ctxName server : String)
  | unchanged (nspace ctxName server : String)
  deriving DecidableEq, Repr

/-- The candidate context names: non-empty keys with non-nil values
matching the filter, sorted lexicographically. -/
def candidateNames (filter : String) (cfg : KubeConfig) : List String :=
  sortStrings ((cfg.contexts.filter
    (fun kv => kv.1 ≠ "" ∧ kv.2.isSome ∧ (filter = "" ∨ strContainsSub kv.1 filter))).map
    (fun kv => kv.1))

/-- ContextOptions.PickContext: zero candidates yield no selection, a
single candidate is auto-selected, otherwise the survey prompt (the
`pick` oracle) is consulted. -/
def pickContext (pick : List String → String → Except Err String)
    (names : List String) (defaultValue : String) : Except Err String :=
  match names with
  | [] => .ok ""
  | [n] => .ok n
  | _ => pick names defaultValue

/-- Result of a context-switch run: the reported outcome and the
configuration passed to clientcmd.ModifyConfig, if any write happened. -/
structure CtxOutcome where
  res : Except Err Report
  written : Option KubeConfig
  deriving DecidableEq, Repr

/-- ContextOptions.Run. `loadResult` is the kube.LoadConfig outcome
(`ok none` models a nil config), `pick` the survey prompt, `modifyErr`
the outcome clientcmd.ModifyConfig would have. -/
def contextRun (filter : String) (args : List String) (batchMode : Bool)
    (pick : List String → String → Except Err String)
    (modifyErr : Option Err)
    (loadResult : Except Err (Option KubeConfig)) : CtxOutcome :=
  match loadResult with
  | .error e => ⟨.error e, none⟩
  | .ok none => ⟨.error .noContexts, none⟩
  | .ok (some cfg) =>
    if cfg.contexts.isEmpty then ⟨.error .noContexts, none⟩
    else
      let names := candidateNames filter cfg
      let ctxName0 := match args with | [] => "" | a :: _ => a
      if args.length > 0 ∧ ctxName0 ∉ names then
        ⟨.error (.invalidArg ctxName0 names), none⟩
      else
        let afterPick : Except Err String :=
          if ctxName0 = "" ∧ batchMode = false then
            pickContext pick names cfg.currentContext
          else .ok ctxName0
        match afterPick with
        | .error e => ⟨.error e, none⟩
        | .ok ctxName =>
          if ctxName ≠ "" ∧ ctxName ≠ cfg.currentContext then
            match lookupCtx cfg ctxName with
            | none => ⟨.error (.contextNotFound ctxName), none⟩
            | some ctx =>
              let newCfg := { cfg with currentContext := ctxName }
              match modifyErr with
              | some _ => ⟨.error .updateFailed, none⟩
              | none =>
                ⟨.ok (.switched ctx.nspace newCfg.currentContext (kubeServer cfg ctx)),
                  some newCfg⟩
          else
            ⟨.ok (.unchanged (currentNamespace cfg) cfg.currentContext (currentServer cfg)),
              none⟩

/-! ### Init workflow flags (InitFlags) -/

/-- InitFlags: the flag bag of the init command (`nspace` stands for
the Namespace field, a Lean keyword). -/
structure InitFlags where
  domain : String
  provider : String
  nspace : String
  userClusterRole : String
  tillerClusterRole : String
  ingressClusterRole : String
  tillerNamespace : String
  ingressNamespace : String
  ingressService : String
  ingressDeployment : String
  externalIP : String
  versionsRepository : String
  versionsGitRef : String
  draftClient : Bool
  helmClient : Bool
  helm3 : Bool
  helmBin : String
  recreateExistingDraftRepos : Bool
  noTiller : Bool
  remoteTiller : Bool
  globalTiller : Bool
  skipIngress : Bool
  skipTiller : Bool
  skipClusterRole : Bool
  onPremise : Bool
  http : Bool
  noGitValidate : Bool
  externalDNS : Bool
  deriving DecidableEq, Repr

def optionUsername : String := "username"

def optionNamespaceFlag : String := "namespace"

def optionTillerNamespace : String := "tiller-namespace"

/-- Modelled from the spec: the provider identifiers of the cloud
package (not in src); only their distinctness matters here. -/
def OPENSHIFT : String := "openshift"

/-- Modelled from the spec: cloud-package provider identifier (not in src). -/
def ALIBABA : String := "alibaba"

/-- Modelled from the spec: cloud-package provider identifier (not in src). -/
def AWS : String := "aws"

/-- Modelled from the spec: cloud-package provider identifier (not in src). -/
def EKS : String := "eks"

/-- Modelled from the spec: opts.DefaultIngressServiceName (not in src). -/
def defaultIngressServiceName : String := "jxing-nginx-ingress-controller"

/-- The tiller normalization at the start of InitOptions.Run: tiller is
disabled whenever remote tiller is off or no-tiller was requested. -/
def runNormalize (f : InitFlags) : InitFlags :=
  if f.remoteTiller = false ∨ f.noTiller then
    { f with helmClient := true, skipTiller := true, globalTiller := false }
  else f

/-- The helm3 normalization at the start of InitOptions.checkOptions. -/
def checkOptionsHelm3 (f : InitFlags) : InitFlags :=
  if f.helm3 then { f with skipTiller := true, noTiller := true } else f

/-- InitOptions.checkOptions: helm3 normalization followed by tiller
namespace validation; `curNs` is the KubeClientAndNamespace outcome,
consulted only when a namespace is needed and unset. -/
def checkOptions (curNs : Except Err String) (f0 : InitFlags) : Except Err InitFlags :=
  let f := checkOptionsHelm3 f0
  if f.skipTiller = false then
    if f.globalTiller then
      if f.tillerNamespace = "" then .error (.missingOption optionTillerNamespace)
      else .ok f
    else
      if f.nspace = "" then
        match curNs with
        | .error e => .error e
        | .ok cur =>
          if cur = "" then .error (.missingOption optionNamespaceFlag)
          else .ok { f with nspace := cur }
      else .ok f
  else .ok f

/-! ### RetryExecutor and the cluster-admin role grant -/

/-- Modelled from the spec: the RetryExecutor (CommonOptions.Retry, not
in src) — invokes the operation up to `attempts` times, sleeping
`delaySec` seconds between failures, returning the first success or the
last observed error after exhaustion. The operation is indexed by its
zero-based attempt number `i` and reports its own trace. -/
def retryExec (delaySec : Nat) (op : Nat → Option Err × List Action) :
    Nat → Nat → Option Err × List Action
  | _, 0 => (none, [])
  | i, 1 => op i
  | i, n + 2 =>
    match op i with
    | (none, tr) => (none, tr)
    | (some _, tr) =>
      let rest := retryExec delaySec op (i + 1) (n + 1)
      (rest.1, tr ++ Action.sleepSec delaySec :: rest.2)

/-- Modelled from the spec: naming.ToValidName (not in src) derives a
normalized name — lowercased, with every character that is not
alphanumeric mapped to a dash. -/
def toValidName (s : String) : String :=
  String.mk (s.toLower.toList.map (fun c => if c.isAlphanum then c else Char.ofNat 45))

/-- Collaborator outcomes for EnableClusterAdminRole: the kube client
construction, the interactive username resolution, and the per-attempt
outcomes of the cluster role binding get and create calls (for the get,
`none` means the binding was found). -/
structure AdminEnv where
  kubeClientErr : Option Err
  clusterUserName : Except Err String
  bindingGet : Nat → Option Err
  bindingCreate : Nat → Option Err

/-- The normalized cluster role binding name derived from the user name
and the user cluster role. -/
def clusterRoleBindingNameOf (username role : String) : String :=
  toValidName (toValidName username ++ "-" ++ role ++ "-binding")

/-- InitOptions.EnableClusterAdminRole: skipped outright under
SkipClusterRole, otherwise a get-or-create of the cluster role binding
wrapped in retryExec with 3 attempts and a 10 second delay. -/
def enableClusterAdminRole (env : AdminEnv) (username : String) (f : InitFlags) :
    Option Err × List Action :=
  if f.skipClusterRole then (none, [])
  else
    match env.kubeClientErr with
    | some e => (some e, [])
    | none =>
      let nameRes : Except Err String :=
        if username = "" then env.clusterUserName else .ok username
      match nameRes with
      | .error e => (some e, [])
      | .ok uname =>
        if uname = "" then (some (.missingOption optionUsername), [])
        else
          let bindingName := clusterRoleBindingNameOf uname f.userClusterRole
          retryExec 10 (fun i =>
            match env.bindingGet i with
            | none => (none, [Action.getBinding bindingName i])
            | some _ =>
              (env.bindingCreate i,
                [Action.getBinding bindingName i, Action.createBinding bindingName i])) 0 3

/-! ### Ingress provisioning (InitOptions.InitIngress) -/

/-- isOpenShiftProvider: the switch over the provider identifier. -/
def isOpenShiftProvider (provider : String) : Bool :=
  if provider = OPENSHIFT then true else false

/-- The Alibaba rename: the default chart deployment/service names are
replaced by the distribution-specific ones only where the caller left
the generic defaults in place. -/
def alibabaAdjust (f : InitFlags) : InitFlags :=
  if f.provider = ALIBABA then
    let fa :=
      if f.ingressDeployment = defaultIngressServiceName then
        { f with ingressDeployment := "nginx-ingress-controller" }
      else f
    if fa.ingressService = defaultIngressServiceName then
      { fa with ingressService := "nginx-ingress-lb" }
    else fa
  else f

/-- Collaborator outcomes for InitIngress. `deploymentPodCount` is the
(count, error) pair returned by kube.DeploymentPodCount;
`installChart` gives the outcome of the chart install at each
zero-based attempt; `masterHost` is the kube.LoadConfig outcome reduced
to the current server host (`ok none` models a nil config). -/
structure IngressEnv where
  kubeClientErr : Option Err
  ensureNamespace : Option Err
  deploymentPodCount : Nat × Option Err
  confirmInstall : Except Err Bool
  appendMyValues : Except Err (List String)
  tempValuesFile : Except Err String
  writeValuesFile : Option Err
  chartVersion : Except Err String
  installChart : Nat → Option Err
  waitDeploymentReady : Option Err
  masterHost : Except Err (Option String)
  parseHost : String → Except Err String
  waitExternalIP : Option Err
  getDomain : String → Except Err String

/-- The inline chart-install loop of InitIngress: the counter `i`
starts at 0; on failure, while i is below 3 the attempt counter is
bumped and one second is slept before retrying; at i = 3 the failure is
logged and the loop exits (its error is then overwritten by the
deployment-readiness wait). Returns the trace of attempts. -/
def ingressInstallLoop (install : Nat → Option Err) (i : Nat) : List Action :=
  match install i with
  | none => [Action.installAttempt i]
  | some _ =>
    if h : 3 ≤ i then [Action.installAttempt i, Action.logInstallError]
    else
      Action.installAttempt i :: Action.sleepSec 1 :: ingressInstallLoop install (i + 1)
termination_by 4 - i
decreasing_by omega

/-- Outcome of the install sub-phase of InitIngress: continue to the
external-IP phase, return success early (operator declined install), or
return an error. -/
inductive InstallPhaseRes where
  | proceed
  | earlyOk
  | fail (e : Err)
  deriving DecidableEq, Repr

/-- The controller-detection and install sub-phase of InitIngress
(from the pod-count query to the deployment-readiness wait). The error
component of the pod-count query is bound but never consulted: the
branch is decided by the count alone. -/
def ingressInstallPhase (env : IngressEnv) (c : Bool × Bool) (f1 : InitFlags)
    (ns : String) : InstallPhaseRes × List Action :=
  let batchMode := c.1
  let advancedMode := c.2
  if env.deploymentPodCount.1 = 0 then
    let conf : Except Err Bool × List Action :=
      if batchMode then (.ok true, [])
      else if advancedMode then (env.confirmInstall, [Action.promptInstallConfirm])
      else (.ok true, [])
    match conf with
    | (.error e, tr) => (.fail e, tr)
    | (.ok installIngressController, tr) =>
      if installIngressController = false then (.earlyOk, tr)
      else
        match env.appendMyValues with
        | .error e => (.fail (.wrapped "failed to append the myvalues file" e), tr)
        | .ok _valuesFiles =>
          let fileStep : Except Err Unit × List Action :=
            if f1.provider = AWS ∨ f1.provider = EKS then
              match env.tempValuesFile with
              | .error e => (.error e, [])
              | .ok fname =>
                match env.writeValuesFile with
                | some e => (.error e, [])
                | none => (.ok (), [Action.writeTempValuesFile fname])
            else (.ok (), [])
          match fileStep with
          | (.error e, trF) => (.fail e, tr ++ trF)
          | (.ok _, trF) =>
            match env.chartVersion with
            | .error e =>
              (.fail (.wrapped "failed to load version of chart stable/nginx-ingress" e),
                tr ++ trF)
            | .ok _version =>
              let trLoop := ingressInstallLoop env.installChart 0
              match env.waitDeploymentReady with
              | some e =>
                (.fail e,
                  tr ++ trF ++ trLoop ++ [Action.waitDeploymentReady f1.ingressDeployment ns])
              | none =>
                (.proceed,
                  tr ++ trF ++ trLoop ++ [Action.waitDeploymentReady f1.ingressDeployment ns])
  else (.proceed, [])

/-- The external-IP sub-phase of InitIngress: a pre-supplied IP is used
directly; in on-premise mode an empty IP is derived from the API server
host; only when the IP is still empty is the polling wait entered. -/
def ingressIpPhase (env : IngressEnv) (f1 : InitFlags) : Except Err String × List Action :=
  let base : Except Err String :=
    if f1.externalIP = "" ∧ f1.onPremise then
      match env.masterHost with
      | .error e => .error e
      | .ok none => .error .emptyKubeConfig
      | .ok (some host) =>
        if host = "" then .ok ""
        else
          match env.parseHost host with
          | .error e => .error (.parseMasterURL host e)
          | .ok h => .ok h
    else .ok f1.externalIP
  match base with
  | .error e => (.error e, [])
  | .ok ip =>
    if ip = "" then
      match env.waitExternalIP with
      | some e => (.error e, [Action.waitExternalIP f1.ingressService f1.ingressNamespace])
      | none => (.ok ip, [Action.waitExternalIP f1.ingressService f1.ingressNamespace])
    else (.ok ip, [])

/-- InitOptions.InitIngress: ensure the ingress namespace, short-circuit
for OpenShift, apply the Alibaba rename, detect/install the controller,
then (for non-OpenShift providers) resolve the external IP and the
domain. `c` is the (batchMode, advancedMode) pair. Returns the final
flags (domain updated) and the effect trace. -/
def initIngress (env : IngressEnv) (c : Bool × Bool) (f0 : InitFlags) :
    Except Err InitFlags × List Action :=
  match env.kubeClientErr with
  | some e => (.error e, [])
  | none =>
    let ns := f0.ingressNamespace
    match env.ensureNamespace with
    | some e => (.error (.ensureNamespaceFailed ns e), [Action.ensureNamespace ns])
    | none =>
      if isOpenShiftProvider f0.provider then (.ok f0, [Action.ensureNamespace ns])
      else
        let f1 := alibabaAdjust f0
        let tr0 := [Action.ensureNamespace ns, Action.queryPodCount f1.ingressDeployment ns]
        match ingressInstallPhase env c f1 ns with
        | (.fail e, trP) => (.error e, tr0 ++ trP)
        | (.earlyOk, trP) => (.ok f1, tr0 ++ trP)
        | (.proceed, trP) =>
          if f1.provider ≠ OPENSHIFT then
            match ingressIpPhase env f1 with
            | (.error e, trI) => (.error e, tr0 ++ trP ++ trI)
            | (.ok ip, trI) =>
              match env.getDomain ip with
              | .error e => (.error e, tr0 ++ trP ++ trI ++ [Action.resolveDomain ip])
              | .ok d =>
                (.ok { f1 with domain := d }, tr0 ++ trP ++ trI ++ [Action.resolveDomain ip])
          else (.ok f1, tr0 ++ trP)

/-! ### Concrete sample data for witnesses -/

/-- A concrete flag state close to the documented CLI defaults. -/
def flagsBase : InitFlags where
  domain := ""
  provider := "gke"
  nspace := "jx"
  userClusterRole := "cluster-admin"
  tillerClusterRole := "tiller"
  ingressClusterRole := "cluster-admin"
  tillerNamespace := "kube-system"
  ingressNamespace := "kube-system"
  ingressService := defaultIngressServiceName
  ingressDeployment := defaultIngressServiceName
  externalIP := ""
  versionsRepository := ""
  versionsGitRef := ""
  draftClient := false
  helmClient := false
  helm3 := false
  helmBin := ""
  recreateExistingDraftRepos := false
  noTiller := true
  remoteTiller := true
  globalTiller := true
  skipIngress := false
  skipTiller := false
  skipClusterRole := false
  onPremise := false
  http := false
  noGitValidate := false
  externalDNS := false

/-! ### C4 -/

/-- C4: if the helm3 flag is set then configuration validation forces
skipTiller and noTiller to true regardless of their prior values, and
the flag normalization is idempotent — applying it twice from any
starting state yields the same flags as one application, so the
validation applied to already-normalized flags is the validation of the
original flags. -/
theorem helm3_forces_skipTiller_noTiller_idem (f : InitFlags) (curNs : Except Err String) :
    (f.helm3 = true →
      (checkOptionsHelm3 f).skipTiller = true ∧ (checkOptionsHelm3 f).noTiller = true) ∧
    checkOptionsHelm3 (checkOptionsHelm3 f) = checkOptionsHelm3 f ∧
    checkOptions curNs (checkOptionsHelm3 f) = checkOptions curNs f := by
  have hid : checkOptionsHelm3 (checkOptionsHelm3 f) = checkOptionsHelm3 f := by
    by_cases h : f.helm3 = true <;> simp [checkOptionsHelm3, h]
  refine ⟨fun h => ?_, hid, ?_⟩
  · simp [checkOptionsHelm3, h]
  · simp only [checkOptions, hid]

/-- C4 witness: the helm3 theorem evaluated at a concrete flag state. -/
theorem helm3_forces_skipTiller_noTiller_idem_witness :
    ((checkOptionsHelm3 { flagsBase with helm3 := true }).skipTiller = true ∧
      (checkOptionsHelm3 { flagsBase with helm3 := true }).noTiller = true) ∧
    checkOptionsHelm3 (checkOptionsHelm3 { flagsBase with helm3 := true }) =
      checkOptionsHelm3 { flagsBase with helm3 := true } ∧
    checkOptions (.ok "jx") (checkOptionsHelm3 { flagsBase with helm3 := true }) =
      checkOptions (.ok "jx") { flagsBase with helm3 := true } := by
  have h := helm3_forces_skipTiller_noTiller_idem { flagsBase with helm3 := true } (.ok "jx")
  exact ⟨h.1 rfl, h.2.1, h.2.2⟩

/-! ### C5 -/

/-- C5: if skipTiller is false (as seen by the validation, i.e. after
the helm3 normalization, which is the only rewrite that precedes the
check), globalTiller is true and tillerNamespace is empty, then
checkOptions fails with a missing-option error naming the
tiller-namespace option and does not proceed. -/
theorem checkOptions_missing_tillerNamespace (f : InitFlags) (curNs : Except Err String)
    (h1 : (checkOptionsHelm3 f).skipTiller = false)
    (h2 : f.globalTiller = true) (h3 : f.tillerNamespace = "") :
    checkOptions curNs f = .error (.missingOption optionTillerNamespace) := by
  have hg : (checkOptionsHelm3 f).globalTiller = true := by
    by_cases h : f.helm3 = true <;> simp [checkOptionsHelm3, h, h2]
  have ht : (checkOptionsHelm3 f).tillerNamespace = "" := by
    by_cases h : f.helm3 = true <;> simp [checkOptionsHelm3, h, h3]
  simp [checkOptions, h1, hg, ht]

/-- C5 witness: the missing tiller-namespace error at a concrete flag
state. -/
theorem checkOptions_missing_tillerNamespace_witness :
    (checkOptionsHelm3 { flagsBase with tillerNamespace := "" }).skipTiller = false ∧
    { flagsBase with tillerNamespace := "" }.globalTiller = true ∧
    { flagsBase with tillerNamespace := "" }.tillerNamespace = "" ∧
    checkOptions (.ok "jx") { flagsBase with tillerNamespace := "" } =
      .error (.missingOption optionTillerNamespace) :=
  ⟨rfl, rfl, rfl, checkOptions_missing_tillerNamespace _ _ rfl rfl rfl⟩

/-! ### C2 -/

/-- A reachable flag state: the CLI can set remote-tiller true,
no-tiller false, skip-setup-tiller true and global-tiller true. -/
def c2Flags : InitFlags := { flagsBase with noTiller := false, skipTiller := true }

/-- C2 counterexample: with skipTiller set directly by its flag (and
remote tiller on, no-tiller off, so the Run normalization does not
fire), the state after the Run normalization and a successful
checkOptions validation has skipTiller and globalTiller both true, so
skipTiller being true does not force globalTiller false for every
reachable flag state. -/
theorem skipTiller_globalTiller_counterexample :
    (runNormalize c2Flags).skipTiller = true ∧
    (runNormalize c2Flags).globalTiller = true ∧
    checkOptions (.ok "jx") (runNormalize c2Flags) = .ok (runNormalize c2Flags) :=
  ⟨rfl, rfl, rfl⟩

/-- C2 amended: only the remote-tiller/no-tiller normalization in Run
forces globalTiller false when it turns skipTiller on; skipTiller set
any other way leaves globalTiller untouched. -/
theorem runNormalize_skipTiller_forces_globalTiller_off (f : InitFlags)
    (h0 : f.skipTiller = false) (h1 : (runNormalize f).skipTiller = true) :
    (runNormalize f).globalTiller = false := by
  by_cases h : (f.remoteTiller = false ∨ f.noTiller = true)
  · simp [runNormalize, h]
  · rw [runNormalize, if_neg h] at h1 ⊢
    rw [h0] at h1
    exact absurd h1 (by simp)

/-- C2 amended witness: the default flag state (no-tiller on) goes
through the normalization, which sets skipTiller and clears
globalTiller. -/
theorem runNormalize_skipTiller_forces_globalTiller_off_witness :
    flagsBase.skipTiller = false ∧ (runNormalize flagsBase).skipTiller = true ∧
    (runNormalize flagsBase).globalTiller = false :=
  ⟨rfl, rfl, runNormalize_skipTiller_forces_globalTiller_off flagsBase rfl rfl⟩

/-! ### C8 and C9 -/

/-- A concrete persisted context set for witnesses: contexts prod and
staging, current context prod. -/
def sampleCfg : KubeConfig where
  contexts := [("staging", some ⟨"c2", "ns2"⟩), ("prod", some ⟨"c1", "ns1"⟩)]
  clusters := [("c1", "https://one.example"), ("c2", "https://two.example")]
  currentContext := "prod"

/-- Candidate names are never the empty string (empty keys are filtered
out before sorting). -/
theorem mem_candidateNames_ne_empty {filter : String} {cfg : KubeConfig} {n : String}
    (h : n ∈ candidateNames filter cfg) : n ≠ "" := by
  rw [candidateNames, sortStrings, List.mem_mergeSort] at h
  simp only [List.mem_map, List.mem_filter] at h
  obtain ⟨kv, ⟨_, hp⟩, hEq⟩ := h
  simp only [decide_eq_true_eq] at hp
  exact hEq ▸ hp.1

/-- C8: a positional context name outside the candidate set (the
filtered names, sorted lexicographically) yields an invalid-argument
error listing the sorted candidates, with no write to the persisted
configuration; the listed candidates are indeed sorted. -/
theorem contextRun_invalid_name (filter : String) (cfg : KubeConfig) (n : String)
    (rest : List String) (batch : Bool)
    (pick : List String → String → Except Err String) (modifyErr : Option Err)
    (hne : cfg.contexts.isEmpty = false)
    (hn : n ∉ candidateNames filter cfg) :
    contextRun filter (n :: rest) batch pick modifyErr (.ok (some cfg)) =
      ⟨.error (.invalidArg n (candidateNames filter cfg)), none⟩ ∧
    (candidateNames filter cfg).Sorted (· ≤ ·) := by
  constructor
  · simp [contextRun, hne, hn]
  · exact List.sorted_mergeSort' _

/-- C8 witness: asking for a missing context against the prod/staging
set reports exactly the sorted candidates and writes nothing. -/
theorem contextRun_invalid_name_witness :
    contextRun "" ["missing"] true (fun _ _ => .ok "") none (.ok (some sampleCfg)) =
      ⟨.error (.invalidArg "missing" ["prod", "staging"]), none⟩ ∧
    (candidateNames "" sampleCfg).Sorted (· ≤ ·) := by
  have hc : candidateNames "" sampleCfg = ["prod", "staging"] := by decide
  have h := contextRun_invalid_name "" sampleCfg "missing" [] true (fun _ _ => .ok "")
    none rfl (by decide)
  exact ⟨hc ▸ h.1, h.2⟩

/-- C9: with a valid positional name, (a) a name differing from the
current context rewrites the persisted current-context field to it and
reports the new namespace/context/server triple; (b) a name equal to
the current context writes nothing and reports the unchanged current
triple; (c) rerunning the same switch on the written configuration
writes nothing more — the same switch twice performs exactly one
write. -/
theorem contextRun_write_discipline (filter : String) (cfg : KubeConfig) (n : String)
    (batch : Bool) (pick : List String → String → Except Err String) (ctx : KubeCtx)
    (hne : cfg.contexts.isEmpty = false)
    (hmem : n ∈ candidateNames filter cfg)
    (hctx : lookupCtx cfg n = some ctx) :
    (n ≠ cfg.currentContext →
      contextRun filter [n] batch pick none (.ok (some cfg)) =
        ⟨.ok (.switched ctx.nspace n (kubeServer cfg ctx)),
          some { cfg with currentContext := n }⟩) ∧
    (n = cfg.currentContext →
      contextRun filter [n] batch pick none (.ok (some cfg)) =
        ⟨.ok (.unchanged (currentNamespace cfg) cfg.currentContext (currentServer cfg)),
          none⟩) ∧
    (n ≠ cfg.currentContext →
      contextRun filter [n] batch pick none (.ok (some { cfg with currentContext := n })) =
        ⟨.ok (.unchanged ctx.nspace n (kubeServer cfg ctx)), none⟩) := by
  have hn0 : n ≠ "" := mem_candidateNames_ne_empty hmem
  refine ⟨fun hdiff => ?_, fun heq => ?_, fun hdiff => ?_⟩
  · simp [contextRun, hne, hmem, hn0, hdiff, hctx]
  · subst heq
    simp [contextRun, hne, hmem, hn0]
  · have hmem' : n ∈ candidateNames filter { cfg with currentContext := n } := hmem
    have hctx' : lookupCtx { cfg with currentContext := n } n = some ctx := hctx
    have hcur : currentNamespace { cfg with currentContext := n } = ctx.nspace := by
      simp [currentNamespace, hctx']
    have hsrv : currentServer { cfg with currentContext := n } = kubeServer cfg ctx := by
      simp [currentServer, hctx', kubeServer]
    simp [contextRun, hne, hmem', hn0, hcur, hsrv]

/-- C9 witness: switching the prod/staging set to staging writes once
and reports the staging triple; the identical rerun writes nothing. -/
theorem contextRun_write_discipline_witness :
    contextRun "" ["staging"] true (fun _ _ => .ok "") none (.ok (some sampleCfg)) =
      ⟨.ok (.switched "ns2" "staging" "https://two.example"),
        some { sampleCfg with currentContext := "staging" }⟩ ∧
    contextRun "" ["staging"] true (fun _ _ => .ok "") none
        (.ok (some { sampleCfg with currentContext := "staging" })) =
      ⟨.ok (.unchanged "ns2" "staging" "https://two.example"), none⟩ := by
  have h := contextRun_write_discipline "" sampleCfg "staging" true (fun _ _ => .ok "")
    ⟨"c2", "ns2"⟩ rfl (by decide) rfl
  exact ⟨h.1 (by decide), h.2.2 (by decide)⟩

/-! ### C3 -/

/-- C3: granting the cluster-admin role (a) under SkipClusterRole
returns success immediately with no cluster operation at all; (b)
otherwise performs a get-or-create under the 3-attempt/10-second retry,
and when the get succeeds (binding already exists) the whole operation
succeeds after that single get, with no create; (c) when every get and
every create fail, the retry performs exactly 3 get-or-create attempts
separated by two 10-second delays and returns the last create error. -/
theorem enableClusterAdminRole_spec (env : AdminEnv) (username : String) (f : InitFlags)
    (ge ce : Err) :
    (f.skipClusterRole = true → enableClusterAdminRole env username f = (none, [])) ∧
    (f.skipClusterRole = false → env.kubeClientErr = none → username ≠ "" →
      env.bindingGet 0 = none →
      enableClusterAdminRole env username f =
        (none,
          [Action.getBinding (clusterRoleBindingNameOf username f.userClusterRole) 0])) ∧
    (f.skipClusterRole = false → env.kubeClientErr = none → username ≠ "" →
      (∀ i, env.bindingGet i = some ge) → (∀ i, env.bindingCreate i = some ce) →
      enableClusterAdminRole env username f =
        (some ce,
          [Action.getBinding (clusterRoleBindingNameOf username f.userClusterRole) 0,
            Action.createBinding (clusterRoleBindingNameOf username f.userClusterRole) 0,
            Action.sleepSec 10,
            Action.getBinding (clusterRoleBindingNameOf username f.userClusterRole) 1,
            Action.createBinding (clusterRoleBindingNameOf username f.userClusterRole) 1,
            Action.sleepSec 10,
            Action.getBinding (clusterRoleBindingNameOf username f.userClusterRole) 2,
            Action.createBinding (clusterRoleBindingNameOf username f.userClusterRole) 2])) := by
  refine ⟨fun hskip => ?_, fun hs hk hu hget => ?_, fun hs hk hu hget hcreate => ?_⟩
  · simp [enableClusterAdminRole, hskip]
  · simp [enableClusterAdminRole, hs, hk, hu, retryExec, hget]
  · simp [enableClusterAdminRole, hs, hk, hu, retryExec, hget, hcreate]

/-- C3 witness: the three branches evaluated on concrete environments
(skip flag set; binding found on the first get; get and create always
failing). -/
theorem enableClusterAdminRole_spec_witness :
    enableClusterAdminRole
        ⟨none, .ok "admin", fun _ => none, fun _ => none⟩ "me@acme.com"
        { flagsBase with skipClusterRole := true } = (none, []) ∧
    enableClusterAdminRole
        ⟨none, .ok "admin", fun _ => none, fun _ => none⟩ "me@acme.com" flagsBase =
      (none,
        [Action.getBinding (clusterRoleBindingNameOf "me@acme.com" "cluster-admin") 0]) ∧
    enableClusterAdminRole
        ⟨none, .ok "admin", fun _ => some (.external 7), fun _ => some (.external 8)⟩
        "me@acme.com" flagsBase =
      (some (.external 8),
        [Action.getBinding (clusterRoleBindingNameOf "me@acme.com" "cluster-admin") 0,
          Action.createBinding (clusterRoleBindingNameOf "me@acme.com" "cluster-admin") 0,
          Action.sleepSec 10,
          Action.getBinding (clusterRoleBindingNameOf "me@acme.com" "cluster-admin") 1,
          Action.createBinding (clusterRoleBindingNameOf "me@acme.com" "cluster-admin") 1,
          Action.sleepSec 10,
          Action.getBinding (clusterRoleBindingNameOf "me@acme.com" "cluster-admin") 2,
          Action.createBinding (clusterRoleBindingNameOf "me@acme.com" "cluster-admin") 2]) := by
  refine ⟨?_, ?_, ?_⟩
  · exact (enableClusterAdminRole_spec ⟨none, .ok "admin", fun _ => none, fun _ => none⟩
      "me@acme.com" { flagsBase with skipClusterRole := true } (.external 7)
      (.external 8)).1 rfl
  · exact (enableClusterAdminRole_spec ⟨none, .ok "admin", fun _ => none, fun _ => none⟩
      "me@acme.com" flagsBase (.external 7) (.external 8)).2.1 rfl rfl (by decide) rfl
  · exact (enableClusterAdminRole_spec
      ⟨none, .ok "admin", fun _ => some (.external 7), fun _ => some (.external 8)⟩
      "me@acme.com" flagsBase (.external 7) (.external 8)).2.2 rfl rfl (by decide)
      (fun _ => rfl) (fun _ => rfl)

/-! ### Ingress helper lemmas -/

theorem alibabaAdjust_provider (f : InitFlags) : (alibabaAdjust f).provider = f.provider := by
  simp only [alibabaAdjust]
  split_ifs <;> rfl

theorem alibabaAdjust_externalIP (f : InitFlags) :
    (alibabaAdjust f).externalIP = f.externalIP := by
  simp only [alibabaAdjust]
  split_ifs <;> rfl

theorem ingressInstallPhase_controller_present (env : IngressEnv) (c : Bool × Bool)
    (f1 : InitFlags) (ns : String) (h : env.deploymentPodCount.1 ≠ 0) :
    ingressInstallPhase env c f1 ns = (.proceed, []) := by
  simp [ingressInstallPhase, h]

theorem ingressInstallPhase_batch_ok (env : IngressEnv) (c : Bool × Bool)
    (f1 : InitFlags) (ns : String) (vf : List String) (ver : String)
    (h0 : env.deploymentPodCount.1 = 0) (hb : c.1 = true)
    (ha : f1.provider ≠ AWS) (he : f1.provider ≠ EKS)
    (hv : env.appendMyValues = .ok vf) (hver : env.chartVersion = .ok ver)
    (hw : env.waitDeploymentReady = none) :
    ingressInstallPhase env c f1 ns =
      (.proceed, ingressInstallLoop env.installChart 0 ++
        [Action.waitDeploymentReady f1.ingressDeployment ns]) := by
  simp [ingressInstallPhase, h0, hb, ha, he, hv, hver, hw]

theorem ingressIpPhase_presupplied (env : IngressEnv) (f1 : InitFlags)
    (hip : f1.externalIP ≠ "") :
    ingressIpPhase env f1 = (.ok f1.externalIP, []) := by
  simp [ingressIpPhase, hip]

theorem ingressInstallLoop_always_fail (install : Nat → Option Err) (e : Err)
    (h : ∀ i, install i = some e) :
    ingressInstallLoop install 0 =
      [Action.installAttempt 0, Action.sleepSec 1, Action.installAttempt 1, Action.sleepSec 1,
        Action.installAttempt 2, Action.sleepSec 1, Action.installAttempt 3,
        Action.logInstallError] := by
  simp [ingressInstallLoop, h]

theorem ingressInstallLoop_first_ok (install : Nat → Option Err) (h : install 0 = none) :
    ingressInstallLoop install 0 = [Action.installAttempt 0] := by
  simp [ingressInstallLoop, h]

/-- The successful generic (batch, non-AWS/EKS, pre-supplied IP) path
through initIngress with the controller absent: install attempts, the
deployment-readiness wait, then domain resolution from the supplied
IP. -/
theorem initIngress_batch_ok_path (env : IngressEnv) (c : Bool × Bool) (f : InitFlags)
    (vf : List String) (ver : String)
    (h1 : env.kubeClientErr = none) (h2 : env.ensureNamespace = none)
    (h3 : f.provider ≠ OPENSHIFT) (h4 : f.provider ≠ AWS) (h5 : f.provider ≠ EKS)
    (hpc : env.deploymentPodCount.1 = 0) (hb : c.1 = true)
    (hv : env.appendMyValues = .ok vf) (hver : env.chartVersion = .ok ver)
    (hw : env.waitDeploymentReady = none) (hip : f.externalIP ≠ "") :
    initIngress env c f =
      ((env.getDomain f.externalIP).map (fun d => { alibabaAdjust f with domain := d }),
        [Action.ensureNamespace f.ingressNamespace,
          Action.queryPodCount (alibabaAdjust f).ingressDeployment f.ingressNamespace] ++
        ingressInstallLoop env.installChart 0 ++
        [Action.waitDeploymentReady (alibabaAdjust f).ingressDeployment f.ingressNamespace,
          Action.resolveDomain f.externalIP]) := by
  have hphase := ingressInstallPhase_batch_ok env c (alibabaAdjust f) f.ingressNamespace
    vf ver hpc hb (by rw [alibabaAdjust_provider]; exact h4)
    (by rw [alibabaAdjust_provider]; exact h5) hv hver hw
  have hipp := ingressIpPhase_presupplied env (alibabaAdjust f)
    (by rw [alibabaAdjust_externalIP]; exact hip)
  cases hd : env.getDomain f.externalIP with
  | error e =>
    simp [initIngress, h1, h2, isOpenShiftProvider, h3, hphase, hipp,
      alibabaAdjust_provider, alibabaAdjust_externalIP, hd, Except.map]
  | ok d =>
    simp [initIngress, h1, h2, isOpenShiftProvider, h3, hphase, hipp,
      alibabaAdjust_provider, alibabaAdjust_externalIP, hd, Except.map]

/-- A concrete ingress environment in which every collaborator
succeeds and the controller is already present. -/
def ingressEnvBase : IngressEnv where
  kubeClientErr := none
  ensureNamespace := none
  deploymentPodCount := (1, none)
  confirmInstall := .ok true
  appendMyValues := .ok []
  tempValuesFile := .ok "ing-values-1"
  writeValuesFile := none
  chartVersion := .ok "1.0.0"
  installChart := fun _ => none
  waitDeploymentReady := none
  masterHost := .ok (some "master.example")
  parseHost := fun h => .ok h
  waitExternalIP := none
  getDomain := fun ip => .ok (ip ++ ".nip.io")

/-! ### C6 -/

/-- C6: for the OpenShift provider, ingress provisioning returns
success right after the ingress namespace is ensured — the trace
contains only the namespace ensure, so the pod-count query, the install
path, the readiness and external-IP waits and domain resolution are
never invoked, even when the environment would report a zero pod
count. -/
theorem initIngress_openshift_short_circuit (env : IngressEnv) (c : Bool × Bool)
    (f : InitFlags)
    (h1 : env.kubeClientErr = none) (h2 : env.ensureNamespace = none)
    (h3 : f.provider = OPENSHIFT) (h4 : env.deploymentPodCount.1 = 0) :
    initIngress env c f = (.ok f, [Action.ensureNamespace f.ingressNamespace]) := by
  simp [initIngress, h1, h2, isOpenShiftProvider, h3]

/-- C6 witness: the OpenShift short circuit on a concrete environment
whose pod count is zero. -/
theorem initIngress_openshift_short_circuit_witness :
    initIngress { ingressEnvBase with deploymentPodCount := (0, none) } (true, false)
        { flagsBase with provider := OPENSHIFT } =
      (.ok { flagsBase with provider := OPENSHIFT },
        [Action.ensureNamespace "kube-system"]) := by
  have h := initIngress_openshift_short_circuit
    { ingressEnvBase with deploymentPodCount := (0, none) } (true, false)
    { flagsBase with provider := OPENSHIFT } rfl rfl rfl rfl
  exact h

/-! ### C7 -/

/-- C7: for a non-OpenShift provider with the controller already
present, a pre-supplied external IP means the external-IP polling wait
never appears in the trace and the workflow proceeds directly to domain
resolution using the supplied IP. -/
theorem initIngress_presupplied_ip (env : IngressEnv) (c : Bool × Bool) (f : InitFlags)
    (h1 : env.kubeClientErr = none) (h2 : env.ensureNamespace = none)
    (h3 : f.provider ≠ OPENSHIFT) (h4 : env.deploymentPodCount.1 ≠ 0)
    (hip : f.externalIP ≠ "") :
    initIngress env c f =
      ((env.getDomain f.externalIP).map (fun d => { alibabaAdjust f with domain := d }),
        [Action.ensureNamespace f.ingressNamespace,
          Action.queryPodCount (alibabaAdjust f).ingressDeployment f.ingressNamespace,
          Action.resolveDomain f.externalIP]) := by
  have hphase := ingressInstallPhase_controller_present env c (alibabaAdjust f)
    f.ingressNamespace h4
  have hipp := ingressIpPhase_presupplied env (alibabaAdjust f)
    (by rw [alibabaAdjust_externalIP]; exact hip)
  cases hd : env.getDomain f.externalIP with
  | error e =>
    simp [initIngress, h1, h2, isOpenShiftProvider, h3, hphase, hipp,
      alibabaAdjust_provider, alibabaAdjust_externalIP, hd, Except.map]
  | ok d =>
    simp [initIngress, h1, h2, isOpenShiftProvider, h3, hphase, hipp,
      alibabaAdjust_provider, alibabaAdjust_externalIP, hd, Except.map]

/-- C7 witness: a pre-supplied IP on a concrete environment resolves
the domain from that IP without any polling wait in the trace. -/
theorem initIngress_presupplied_ip_witness :
    initIngress ingressEnvBase (true, false) { flagsBase with externalIP := "35.0.0.1" } =
      (.ok { flagsBase with externalIP := "35.0.0.1", domain := "35.0.0.1.nip.io" },
        [Action.ensureNamespace "kube-system",
          Action.queryPodCount defaultIngressServiceName "kube-system",
          Action.resolveDomain "35.0.0.1"]) := by
  have h := initIngress_presupplied_ip ingressEnvBase (true, false)
    { flagsBase with externalIP := "35.0.0.1" } rfl rfl (by decide) (by decide) (by decide)
  rw [h]
  rfl

/-! ### C1 -/

/-- C1: on the install path (controller absent, batch mode), when every
chart-install attempt fails the install is performed once and retried 3
more times with a one-second sleep between attempts; exhausting the
retries only logs the error — the workflow continues to the
deployment-readiness wait and onwards, and the final result is the
domain-resolution outcome, not the install error. -/
theorem initIngress_install_retry (env : IngressEnv) (c : Bool × Bool) (f : InitFlags)
    (e : Err) (vf : List String) (ver : String)
    (h1 : env.kubeClientErr = none) (h2 : env.ensureNamespace = none)
    (h3 : f.provider ≠ OPENSHIFT) (h4 : f.provider ≠ AWS) (h5 : f.provider ≠ EKS)
    (hpc : env.deploymentPodCount.1 = 0) (hb : c.1 = true)
    (hv : env.appendMyValues = .ok vf) (hver : env.chartVersion = .ok ver)
    (hfail : ∀ i, env.installChart i = some e)
    (hw : env.waitDeploymentReady = none) (hip : f.externalIP ≠ "") :
    initIngress env c f =
      ((env.getDomain f.externalIP).map (fun d => { alibabaAdjust f with domain := d }),
        [Action.ensureNamespace f.ingressNamespace,
          Action.queryPodCount (alibabaAdjust f).ingressDeployment f.ingressNamespace,
          Action.installAttempt 0, Action.sleepSec 1,
          Action.installAttempt 1, Action.sleepSec 1,
          Action.installAttempt 2, Action.sleepSec 1,
          Action.installAttempt 3, Action.logInstallError,
          Action.waitDeploymentReady (alibabaAdjust f).ingressDeployment f.ingressNamespace,
          Action.resolveDomain f.externalIP]) := by
  rw [initIngress_batch_ok_path env c f vf ver h1 h2 h3 h4 h5 hpc hb hv hver hw hip,
    ingressInstallLoop_always_fail env.installChart e hfail]
  simp

/-- C1 witness: an always-failing chart install on a concrete
environment — four attempts with three one-second sleeps, then the
readiness wait and domain resolution succeed. -/
theorem initIngress_install_retry_witness :
    initIngress
        { ingressEnvBase with
            deploymentPodCount := (0, none),
            installChart := fun _ => some (.external 1) } (true, false)
        { flagsBase with externalIP := "1.2.3.4" } =
      (.ok { flagsBase with externalIP := "1.2.3.4", domain := "1.2.3.4.nip.io" },
        [Action.ensureNamespace "kube-system",
          Action.queryPodCount defaultIngressServiceName "kube-system",
          Action.installAttempt 0, Action.sleepSec 1,
          Action.installAttempt 1, Action.sleepSec 1,
          Action.installAttempt 2, Action.sleepSec 1,
          Action.installAttempt 3, Action.logInstallError,
          Action.waitDeploymentReady defaultIngressServiceName "kube-system",
          Action.resolveDomain "1.2.3.4"]) := by
  have h := initIngress_install_retry
    { ingressEnvBase with
        deploymentPodCount := (0, none),
        installChart := fun _ => some (.external 1) } (true, false)
    { flagsBase with externalIP := "1.2.3.4" } (.external 1) [] "1.0.0"
    rfl rfl (by decide) (by decide) (by decide) rfl rfl rfl rfl (fun _ => rfl) rfl
    (by decide)
  rw [h]
  rfl

/-! ### C10 -/

/-- C10 (implicit): the error returned by the pod-count query is
discarded — the result of ingress provisioning is the same whatever
that error component is — and with a failed query (zero count together
with an error), the install path is taken and the run completes without
ever surfacing the detection error. -/
theorem initIngress_detection_error_discarded (env : IngressEnv) (c : Bool × Bool)
    (f : InitFlags) (e : Err) (vf : List String) (ver : String)
    (h1 : env.kubeClientErr = none) (h2 : env.ensureNamespace = none)
    (h3 : f.provider ≠ OPENSHIFT) (h4 : f.provider ≠ AWS) (h5 : f.provider ≠ EKS)
    (hpc : env.deploymentPodCount = (0, some e)) (hb : c.1 = true)
    (hv : env.appendMyValues = .ok vf) (hver : env.chartVersion = .ok ver)
    (hinst : env.installChart 0 = none)
    (hw : env.waitDeploymentReady = none) (hip : f.externalIP ≠ "") :
    (∀ e2 : Option Err,
      initIngress { env with deploymentPodCount := (0, e2) } c f = initIngress env c f) ∧
    initIngress env c f =
      ((env.getDomain f.externalIP).map (fun d => { alibabaAdjust f with domain := d }),
        [Action.ensureNamespace f.ingressNamespace,
          Action.queryPodCount (alibabaAdjust f).ingressDeployment f.ingressNamespace,
          Action.installAttempt 0,
          Action.waitDeploymentReady (alibabaAdjust f).ingressDeployment f.ingressNamespace,
          Action.resolveDomain f.externalIP]) := by
  have hpc0 : env.deploymentPodCount.1 = 0 := by rw [hpc]
  have hmain := initIngress_batch_ok_path env c f vf ver h1 h2 h3 h4 h5 hpc0 hb hv hver hw hip
  constructor
  · intro e2
    have hL := initIngress_batch_ok_path { env with deploymentPodCount := (0, e2) } c f
      vf ver h1 h2 h3 h4 h5 rfl hb hv hver hw hip
    rw [hL, hmain]
  · rw [hmain, ingressInstallLoop_first_ok env.installChart hinst]
    simp

/-- C10 witness: a failed pod-count query (count zero with an error) on
a concrete environment still triggers installation and the run ends in
the domain-resolution result, with the detection error gone. -/
theorem initIngress_detection_error_discarded_witness :
    initIngress { ingressEnvBase with deploymentPodCount := (0, some (.external 9)) }
        (true, false) { flagsBase with externalIP := "1.2.3.5" } =
      initIngress { ingressEnvBase with deploymentPodCount := (0, none) }
        (true, false) { flagsBase with externalIP := "1.2.3.5" } ∧
    initIngress { ingressEnvBase with deploymentPodCount := (0, some (.external 9)) }
        (true, false) { flagsBase with externalIP := "1.2.3.5" } =
      (.ok { flagsBase with externalIP := "1.2.3.5", domain := "1.2.3.5.nip.io" },
        [Action.ensureNamespace "kube-system",
          Action.queryPodCount defaultIngressServiceName "kube-system",
          Action.installAttempt 0,
          Action.waitDeploymentReady defaultIngressServiceName "kube-system",
          Action.resolveDomain "1.2.3.5"]) := by
  have h := initIngress_detection_error_discarded
    { ingressEnvBase with deploymentPodCount := (0, some (.external 9)) } (true, false)
    { flagsBase with externalIP := "1.2.3.5" } (.external 9) [] "1.0.0"
    rfl rfl (by decide) (by decide) (by decide) rfl rfl rfl rfl rfl rfl (by decide)
  refine ⟨h.1 none, ?_⟩
  rw [h.2]
  rfl

end JX
